import Mathlib

/-!
Verification of the ParaBank registration test suite.

This development shallowly embeds the JavaScript sources:
- the success/failure detector `isRegistrationSuccessful` and the error
  collector `getErrorMessages` of `src/pages/RegistrationPage.js`
  (together with the `BasePage` primitives they use),
- the test-data generator `generateUniqueUser` of the user-data module,
- the TC 001 retry loop of `src/tests/registration.spec.js`,
- the step/case/run recorder (`executeStep`, `runTestCase001`, `run`)
  of the `ParaBankTestSuite` class.

Browser operations are modelled as explicit data: an operation that can
throw is an `Except Unit` value (or `Except String` where the message
matters); `isElementVisible` catches internally in the source and is
therefore modelled as a total `String → Bool`.
-/

/-! ## JavaScript string primitives -/

/-- `s.includes(pat)` of JavaScript: `pat` occurs as a contiguous substring. -/
def jsIncludes (s pat : String) : Bool :=
  decide (pat.data <:+: s.data)

/-- `s.toLowerCase()` restricted to ASCII, which is all the sources use. -/
def jsToLower (s : String) : String :=
  ⟨s.data.map Char.toLower⟩

/-- Whitespace predicate used by `trim`. -/
def wsB (c : Char) : Bool :=
  c.isWhitespace

/-- Drop whitespace from both ends of a character list (`String.prototype.trim`). -/
def trimList (l : List Char) : List Char :=
  List.rdropWhile wsB (List.dropWhile wsB l)

/-- `s.trim()` of JavaScript. -/
def jsTrim (s : String) : String :=
  ⟨trimList s.data⟩

/-- `s.padStart(len, c)` of JavaScript. -/
def jsPadStart (s : String) (len : Nat) (c : Char) : String :=
  ⟨List.replicate (len - s.data.length) c ++ s.data⟩

/-- `s.slice(-n)` of JavaScript: the last `n` characters. -/
def jsSliceLast (s : String) (n : Nat) : String :=
  ⟨s.data.drop (s.data.length - n)⟩

/-- `s.slice(-a, -b)` of JavaScript for `a ≥ b`: characters from `len - a`
up to (excluding) `len - b`. -/
def jsSliceNeg (s : String) (a b : Nat) : String :=
  ⟨(s.data.take (s.data.length - b)).drop (s.data.length - a)⟩

/-! ## Base-36 rendering (`Number.prototype.toString(36)`) -/

/-- The base-36 digit characters `0-9a-z` used by `Number.toString(36)`. -/
def base36digit (d : Nat) : Char :=
  if d < 10 then Char.ofNat (48 + d) else Char.ofNat (87 + d)

/-- Digit expansion of `n` in base 36, most significant digit first.
The first argument is fuel; any fuel `≥ n` suffices since `n` shrinks by
a factor of 36 each step. -/
def toBase36Core : Nat → Nat → List Char
  | 0, _ => []
  | fuel + 1, n =>
    if n = 0 then []
    else toBase36Core fuel (n / 36) ++ [base36digit (n % 36)]

/-- Character list of `n.toString(36)`. -/
def toBase36Chars (n : Nat) : List Char :=
  if n = 0 then ['0'] else toBase36Core (n + 1) n

/-- `n.toString(36)` of JavaScript for a natural number `n`. -/
def toBase36 (n : Nat) : String :=
  ⟨toBase36Chars n⟩

/-! ## Registrant data (`generateUniqueUser` of the user-data module) -/

/-- One registration form's worth of data, the fields filled by
`fillRegistrationForm`. -/
structure Registrant where
  firstName : String
  lastName : String
  address : String
  city : String
  state : String
  zipCode : String
  phone : String
  ssn : String
  username : String
  password : String
deriving DecidableEq

/-- The username built by `generateUniqueUser`:
`u` + `timestamp.toString(36)` + `randomNum.toString(36)` +
`Math.random().toString(36).substr(2, 5)`.  The fractional base-36 digits
of `Math.random()` are passed in as `frac` (each `< 36`). -/
def jsUsername (timestamp randomNum : Nat) (frac : List Nat) : String :=
  ⟨'u' :: (toBase36Chars timestamp ++ toBase36Chars randomNum ++
    (frac.take 5).map base36digit)⟩

/-- `generateUniqueUser()` of the user-data module, with the ambient
`Date.now()` value, `Math.floor(Math.random() * 1000)` value, and the
base-36 fractional digits of the second `Math.random()` call made explicit. -/
def generateUniqueUser (timestamp randomNum : Nat) (frac : List Nat) : Registrant :=
  { firstName := "Test" ++ toString randomNum
    lastName := "User" ++ toString randomNum
    address := toString randomNum ++ " Test Street"
    city := "TestCity"
    state := "TC"
    zipCode := jsPadStart (toString randomNum) 5 '0'
    phone := "555-" ++ jsPadStart (toString randomNum) 3 '0' ++ "-" ++
      jsSliceLast (toString timestamp) 4
    ssn := jsPadStart (toString randomNum) 3 '0' ++ "-" ++
      jsSliceNeg (toString timestamp) 6 3 ++ "-" ++ jsSliceLast (toString timestamp) 3
    username := jsUsername timestamp randomNum frac
    password := "TestPass" ++ toString randomNum ++ "!" }

/-! ## Session state and the selector constants of `RegistrationPage` -/

/-- Selector of the specific success message (`elements.successMessage`). -/
def successMessageSel : String := "text=Your account was created successfully"

/-- Selector of the account-created paragraph (`elements.usernameParagraph`). -/
def usernameParagraphSel : String := "p:has-text(\"Your account was created successfully\")"

/-- Selector of the welcome title (`elements.welcomeMessage`). -/
def welcomeMessageSel : String := "h1.title"

/-- Selector of the account-services section (`elements.accountServicesSection`). -/
def accountServicesSel : String := "#accountServices"

/-- A snapshot of the browser session as observed by the page object.
Fallible browser operations are `Except Unit` values: `.error ()` models the
underlying promise rejecting.  `isVisible` models `BasePage.isElementVisible`,
which catches internally and returns `false` on any failure or timeout, so it
is a total boolean.  `textContentRes` models `BasePage.getTextContent`
(`waitForElement` then `page.textContent`): it can throw (`.error ()`),
yield `null` (`.ok none`), or yield the text (`.ok (some t)`).
`errorElements` models `page.$$('.error')`: the lookup can throw, and each
element's `textContent()` read can independently throw or yield `null`. -/
structure Session where
  currentUrl : Except Unit String
  errorCount : Except Unit Nat
  errorTexts : Except Unit (List String)
  isVisible : String → Bool
  textContentRes : String → Except Unit (Option String)
  pageContent : Except Unit String
  errorElements : Except Unit (List (Except Unit (Option String)))

/-- Method 3 of `isRegistrationSuccessful`: if the welcome title is visible,
read its text with `getTextContent` and test `includes('Welcome')`.  A `null`
text makes `welcomeText.includes` throw a TypeError, modelled as `.error ()`. -/
def method3 (s : Session) : Except Unit Bool :=
  if s.isVisible welcomeMessageSel then
    match s.textContentRes welcomeMessageSel with
    | Except.error e => Except.error e
    | Except.ok none => Except.error ()
    | Except.ok (some t) => Except.ok (jsIncludes t "Welcome")
  else Except.ok false

/-- Methods 1 through 6 of `isRegistrationSuccessful`, evaluated after the
initial rejection check, short-circuiting on the first affirmative signal. -/
def methods1to6 (s : Session) (currentUrl : String) : Except Unit Bool :=
  if s.isVisible successMessageSel then Except.ok true
  else if s.isVisible usernameParagraphSel then Except.ok true
  else
    match method3 s with
    | Except.error e => Except.error e
    | Except.ok true => Except.ok true
    | Except.ok false =>
      if s.isVisible accountServicesSel then Except.ok true
      else if jsIncludes currentUrl "overview" || jsIncludes currentUrl "account" ||
          !(jsIncludes currentUrl "register.htm") then Except.ok true
      else
        match s.pageContent with
        | Except.error e => Except.error e
        | Except.ok c =>
          if jsIncludes (jsToLower c) "account was created" ||
             jsIncludes (jsToLower c) "welcome" ||
             jsIncludes (jsToLower c) "successful" then Except.ok true
          else Except.ok false

/-- The body of `isRegistrationSuccessful` inside its outer `try`: read the
URL once; if still on `register.htm` with a nonzero `.error` element count,
read the error texts (for logging) and return `false`; otherwise run the
cascade of success signals. -/
def isRegBody (s : Session) : Except Unit Bool :=
  match s.currentUrl with
  | Except.error e => Except.error e
  | Except.ok currentUrl =>
    if jsIncludes currentUrl "register.htm" then
      match s.errorCount with
      | Except.error e => Except.error e
      | Except.ok n =>
        if n > 0 then
          match s.errorTexts with
          | Except.error e => Except.error e
          | Except.ok _ => Except.ok false
        else methods1to6 s currentUrl
    else methods1to6 s currentUrl

/-- `RegistrationPage.isRegistrationSuccessful`: the body wrapped in the
outer `try`/`catch` that returns `false` on any uncaught error. -/
def isRegistrationSuccessful (s : Session) : Bool :=
  match isRegBody s with
  | Except.ok b => b
  | Except.error _ => false

/-- The `for` loop of `getErrorMessages`: walk the `.error` elements pushing
trimmed non-empty texts; a throw from `textContent()` (or from calling
`.trim()` on a `null` text) is caught by the surrounding `try`, so the
messages collected so far are what the function returns. -/
def collectGo : List (Except Unit (Option String)) → List String → List String
  | [], acc => acc
  | Except.error _ :: _, acc => acc
  | Except.ok none :: _, acc => acc
  | Except.ok (some t) :: rest, acc =>
    if jsTrim t = "" then collectGo rest acc
    else collectGo rest (acc ++ [jsTrim t])

/-- `RegistrationPage.getErrorMessages`: `page.$$('.error')` then the
collection loop; if the element lookup itself throws, the still-empty
accumulator is returned. -/
def getErrorMessages (s : Session) : List String :=
  match s.errorElements with
  | Except.error _ => []
  | Except.ok es => collectGo es []

/-! ## The TC 001 retry loop of `registration.spec.js` -/

/-- The conflict test of the retry loop:
`errorMessages.some(msg => msg.toLowerCase().includes('username') &&
msg.toLowerCase().includes('exists'))`. -/
def hasUsernameConflict (msgs : List String) : Bool :=
  msgs.any fun m =>
    jsIncludes (jsToLower m) "username" && jsIncludes (jsToLower m) "exists"

/-- The per-iteration computation
`userData.username.includes('testuser_') ? testData.generateUniqueUser() : userData`.
In the spec file's scope no `testData` binding exists (only
`generateUniqueUser` and `getTestData` are imported), so taking the first
branch would raise a ReferenceError, modelled as `.error ()`; otherwise the
original `userData` is used unchanged. -/
def freshUserDataFor (userData : Registrant) : Except Unit Registrant :=
  if jsIncludes userData.username "testuser_" then Except.error ()
  else Except.ok userData

/-- The `while (attempt < maxAttempts && !success)` loop of TC 001, driven
by the per-attempt detector outcome `det` and error-message list `errs`
(indexed by the 1-based attempt counter).  The fuel argument equals
`maxAttempts - attempt`.  Returns the list of `Registrant`s handed to
`fillRegistrationForm`, in order, and either the loop's `success` flag or
the error thrown inside the loop. -/
def tc001Go (ud : Registrant) (det : Nat → Bool) (errs : Nat → List String) :
    Nat → Nat → List Registrant → List Registrant × Except String Bool
  | 0, _, fills => (fills, Except.ok false)
  | fuel + 1, attempt, fills =>
    match freshUserDataFor ud with
    | Except.error _ => (fills, Except.error "ReferenceError: testData is not defined")
    | Except.ok fresh =>
      if det (attempt + 1) then (fills ++ [fresh], Except.ok true)
      else if hasUsernameConflict (errs (attempt + 1)) && decide (0 < fuel) then
        tc001Go ud det errs fuel (attempt + 1) (fills ++ [fresh])
      else (fills ++ [fresh], Except.ok false)

/-- The whole step-3 block of TC 001: the retry loop with `maxAttempts = 3`,
followed by `if (!success) throw new Error('Registration failed after 3 attempts')`. -/
def tc001 (ud : Registrant) (det : Nat → Bool) (errs : Nat → List String) :
    List Registrant × Except String Unit :=
  match tc001Go ud det errs 3 0 [] with
  | (fills, Except.ok true) => (fills, Except.ok ())
  | (fills, Except.ok false) => (fills, Except.error "Registration failed after 3 attempts")
  | (fills, Except.error e) => (fills, Except.error e)

/-! ## The `ParaBankTestSuite` recorder -/

/-- A step record as built by `executeStep` (timestamps abstracted to `Nat`). -/
structure StepResult where
  name : String
  status : String
  startTime : Option Nat
  endTime : Option Nat
  result : Option String
  error : Option String
deriving DecidableEq, Inhabited

/-- A test-case record as built by `runTestCase001`. -/
structure CaseResult where
  id : String
  name : String
  status : String
  steps : List StepResult
  startTime : Option Nat
  endTime : Option Nat
  error : Option String
deriving DecidableEq, Inhabited

/-- The `testResults` object of `ParaBankTestSuite`. -/
structure TestResults where
  startTime : Option Nat
  endTime : Option Nat
  totalTests : Nat
  passedTests : Nat
  failedTests : Nat
  testCases : List CaseResult
deriving DecidableEq

/-- The `testResults` value set up by the `ParaBankTestSuite` constructor. -/
def initialResults (t : Nat) : TestResults :=
  { startTime := some t, endTime := none, totalTests := 0, passedTests := 0,
    failedTests := 0, testCases := [] }

/-- `ParaBankTestSuite.executeStep`: run the step function (its outcome is
given as `Except String String`), record start and end times, and either
return the PASSED record or rethrow the error after finalizing the FAILED
record in the `finally` block.  The thrown error carries the finalized
record, mirroring that the JavaScript `step` object is fully updated at the
moment of the rethrow. -/
def executeStep (name : String) (fnResult : Except String String) (t0 t1 : Nat) :
    Except (String × StepResult) StepResult :=
  match fnResult with
  | Except.ok r =>
    Except.ok { name := name, status := "PASSED", startTime := some t0,
                endTime := some t1, result := some r, error := none }
  | Except.error e =>
    Except.error (e, { name := name, status := "FAILED", startTime := some t0,
                       endTime := some t1, result := none, error := some e })

/-- The sequence of `testCase.steps.push(await this.executeStep(...))` calls:
each PASSED step is pushed; the first failing step makes `executeStep`
rethrow, so the push never runs — the loop stops with the steps pushed so
far and the thrown error (with its finalized step record). -/
def runSteps : List (String × Except String String) → Nat →
    List StepResult × Option (String × StepResult)
  | [], _ => ([], none)
  | (n, fr) :: rest, t =>
    match executeStep n fr t (t + 1) with
    | Except.ok st =>
      let sr := runSteps rest (t + 2)
      (st :: sr.1, sr.2)
    | Except.error (e, st) => ([], some (e, st))

/-- `ParaBankTestSuite.runTestCase001`: run the steps; on success mark the
case PASSED and bump `passedTests`, on a thrown step error the `catch`
marks the case FAILED with the error message and bumps `failedTests`;
either way the case is pushed onto `testCases` and `totalTests` is bumped. -/
def runTestCase001 (res : TestResults) (outs : List (String × Except String String))
    (t0 : Nat) : TestResults :=
  let sr := runSteps outs (t0 + 1)
  let tc : CaseResult :=
    { id := "TC 001", name := "Verify that user can register a new customer",
      status := if sr.2 = none then "PASSED" else "FAILED",
      steps := sr.1,
      startTime := some t0,
      endTime := some (t0 + 2 * outs.length + 2),
      error := match sr.2 with | none => none | some (e, _) => some e }
  { res with
    testCases := res.testCases ++ [tc],
    totalTests := res.totalTests + 1,
    passedTests := res.passedTests + (if sr.2 = none then 1 else 0),
    failedTests := res.failedTests + (if sr.2 = none then 0 else 1) }

/-- `ParaBankTestSuite.run`: initialize (which can fail with a launch
error, caught by the outer `catch` which exits with code 1), run TC 001,
generate the report (whose file-system writes can also fail into the same
`catch`), then exit 1 if `failedTests > 0` and 0 otherwise.  Returns the
process exit code together with the final `testResults`. -/
def suiteRun (initOk : Bool) (outs : List (String × Except String String))
    (reportOk : Bool) (t : Nat) : Nat × TestResults :=
  if initOk = false then (1, initialResults t)
  else
    let res := runTestCase001 (initialResults t) outs t
    if reportOk = false then (1, res)
    else if res.failedTests > 0 then (1, res)
    else (0, res)

/-- The run-record invariant claimed for `runTestCase001`. -/
def resultsInvariant (r : TestResults) : Prop :=
  r.totalTests = r.passedTests + r.failedTests ∧
  r.totalTests = r.testCases.length ∧
  ∀ tc ∈ r.testCases,
    (tc.status = "PASSED" ∨ tc.status = "FAILED") ∧ tc.endTime ≠ none

/-- One `runTestCase001` call viewed as a fold step over its inputs. -/
def caseStep (r : TestResults) (p : List (String × Except String String) × Nat) :
    TestResults :=
  runTestCase001 r p.1 p.2

/-! ## Concrete session snapshots used as evaluation inputs -/

/-- Still on the registration page with one `.error` element, while every
success signal is simultaneously present. -/
def sC1 : Session :=
  { currentUrl := Except.ok "https://parabank.parasoft.com/parabank/register.htm"
    errorCount := Except.ok 1
    errorTexts := Except.ok ["Username already exists"]
    isVisible := fun _ => true
    textContentRes := fun _ => Except.ok (some "Welcome John")
    pageContent := Except.ok "Your account was created successfully"
    errorElements := Except.ok [] }

/-- The session whose URL read fails outright. -/
def sC4err : Session :=
  { currentUrl := Except.error ()
    errorCount := Except.ok 0
    errorTexts := Except.ok []
    isVisible := fun _ => true
    textContentRes := fun _ => Except.ok (some "Welcome")
    pageContent := Except.ok "successful"
    errorElements := Except.ok [] }

/-- No structured errors, the welcome title and the account-services section
are both visible, but the welcome title's text read throws — a later signal
(and even the raw page text) would report success. -/
def sC5 : Session :=
  { currentUrl := Except.ok "https://parabank.parasoft.com/parabank/register.htm"
    errorCount := Except.ok 0
    errorTexts := Except.ok []
    isVisible := fun sel => sel == welcomeMessageSel || sel == accountServicesSel
    textContentRes := fun _ => Except.error ()
    pageContent := Except.ok "Your account was created successfully"
    errorElements := Except.ok [] }

/-- The welcome-title visibility check itself came back `false` (as it does
whenever its lookup fails inside `isElementVisible`), while the
account-services section is visible. -/
def sC5a : Session :=
  { currentUrl := Except.ok "https://parabank.parasoft.com/parabank/register.htm"
    errorCount := Except.ok 0
    errorTexts := Except.ok []
    isVisible := fun sel => sel == accountServicesSel
    textContentRes := fun _ => Except.error ()
    pageContent := Except.ok ""
    errorElements := Except.ok [] }

/-- Still on `register.htm`, no structured errors, nothing visible, but the
raw page content carries the success sentence. -/
def sC6 : Session :=
  { currentUrl := Except.ok "https://parabank.parasoft.com/parabank/register.htm"
    errorCount := Except.ok 0
    errorTexts := Except.ok []
    isVisible := fun _ => false
    textContentRes := fun _ => Except.ok (some "")
    pageContent := Except.ok "<p>Your account was created successfully</p>"
    errorElements := Except.ok [] }

/-- Session with no `.error` elements at all. -/
def sC7a : Session :=
  { currentUrl := Except.ok "https://parabank.parasoft.com/parabank/register.htm"
    errorCount := Except.ok 0
    errorTexts := Except.ok []
    isVisible := fun _ => false
    textContentRes := fun _ => Except.ok (some "")
    pageContent := Except.ok ""
    errorElements := Except.ok [] }

/-- Session where the `.error` element lookup itself throws. -/
def sC7b : Session :=
  { currentUrl := Except.ok "https://parabank.parasoft.com/parabank/register.htm"
    errorCount := Except.ok 0
    errorTexts := Except.ok []
    isVisible := fun _ => false
    textContentRes := fun _ => Except.ok (some "")
    pageContent := Except.ok ""
    errorElements := Except.error () }

/-- Session with one readable `.error` element followed by one whose text
read throws mid-iteration. -/
def sC7c : Session :=
  { currentUrl := Except.ok "https://parabank.parasoft.com/parabank/register.htm"
    errorCount := Except.ok 3
    errorTexts := Except.ok []
    isVisible := fun _ => false
    textContentRes := fun _ => Except.ok (some "")
    pageContent := Except.ok ""
    errorElements := Except.ok [Except.ok (some "  E1  "), Except.error (),
                                Except.ok (some "E2")] }

/-- A run of TC 001 whose first step passes and whose second step fails. -/
def c8run : TestResults :=
  runTestCase001 (initialResults 0) [("s1", Except.ok "r1"), ("s2", Except.error "boom")] 0

/-- The single case record of a one-step all-passing TC 001 run. -/
def c8CaseA : CaseResult :=
  ((runTestCase001 (initialResults 0) [("s1", Except.ok "r1")] 0).testCases).getD 0 default

/-! ## Helper lemmas -/

theorem jsToLower_data (s : String) : (jsToLower s).data = s.data.map Char.toLower := rfl

theorem jsUsername_data (ts rand : Nat) (frac : List Nat) :
    (jsUsername ts rand frac).data =
      'u' :: (toBase36Chars ts ++ toBase36Chars rand ++ (frac.take 5).map base36digit) := rfl

theorem jsIncludes_of_data_suffix {s pat : String} (h : pat.data <:+ s.data) :
    jsIncludes s pat = true :=
  decide_eq_true h.isInfix

theorem toLower_includes_trans {c p q : String}
    (hcp : jsIncludes c p = true)
    (hq : q.data <:+: (jsToLower p).data) :
    jsIncludes (jsToLower c) q = true := by
  have h1 : p.data <:+: c.data := of_decide_eq_true hcp
  obtain ⟨l, r, hlr⟩ := h1
  have h2 : (jsToLower p).data <:+: (jsToLower c).data := by
    refine ⟨l.map Char.toLower, r.map Char.toLower, ?_⟩
    rw [jsToLower_data, jsToLower_data, ← hlr]
    simp
  exact decide_eq_true (hq.trans h2)

theorem base36digit_ne_underscore : ∀ d : Nat, d < 36 → base36digit d ≠ '_' := by decide

theorem toBase36Core_chars : ∀ fuel n : Nat, ∀ c ∈ toBase36Core fuel n,
    ∃ d, d < 36 ∧ c = base36digit d := by
  intro fuel
  induction fuel with
  | zero => intro n c hc; simp [toBase36Core] at hc
  | succ fuel ih =>
    intro n c hc
    by_cases hn : n = 0
    · simp [toBase36Core, hn] at hc
    · simp only [toBase36Core, if_neg hn, List.mem_append, List.mem_singleton] at hc
      rcases hc with hc | hc
      · exact ih _ c hc
      · exact ⟨n % 36, Nat.mod_lt _ (by norm_num), hc⟩

theorem toBase36Chars_ne_underscore (n : Nat) : ∀ c ∈ toBase36Chars n, c ≠ '_' := by
  intro c hc
  unfold toBase36Chars at hc
  by_cases hn : n = 0
  · rw [if_pos hn] at hc
    rcases List.mem_singleton.mp hc with rfl
    decide
  · rw [if_neg hn] at hc
    rcases toBase36Core_chars _ _ c hc with ⟨d, hd, rfl⟩
    exact base36digit_ne_underscore d hd

theorem username_no_underscore (ts rand : Nat) (frac : List Nat)
    (hfrac : ∀ d ∈ frac, d < 36) : '_' ∉ (jsUsername ts rand frac).data := by
  intro hmem
  rw [jsUsername_data] at hmem
  rcases List.mem_cons.mp hmem with h | h
  · exact absurd h (by decide)
  rcases List.mem_append.mp h with h | h
  · rcases List.mem_append.mp h with h | h
    · exact toBase36Chars_ne_underscore ts _ h rfl
    · exact toBase36Chars_ne_underscore rand _ h rfl
  · rcases List.mem_map.mp h with ⟨d, hd, hbd⟩
    exact base36digit_ne_underscore d (hfrac d (List.take_subset 5 frac hd)) hbd

theorem jsIncludes_testuser_eq_false {s : String} (h : '_' ∉ s.data) :
    jsIncludes s "testuser_" = false := by
  apply decide_eq_false
  intro hinf
  exact h (hinf.subset (by decide))

theorem freshUserDataFor_generated (ts rand : Nat) (frac : List Nat)
    (hfrac : ∀ d ∈ frac, d < 36) :
    freshUserDataFor (generateUniqueUser ts rand frac) =
      Except.ok (generateUniqueUser ts rand frac) := by
  unfold freshUserDataFor
  have hne : jsIncludes (generateUniqueUser ts rand frac).username "testuser_" = false :=
    jsIncludes_testuser_eq_false (username_no_underscore ts rand frac hfrac)
  rw [hne]
  rfl

theorem trimList_idem (l : List Char) : trimList (trimList l) = trimList l := by
  unfold trimList
  have h1 : List.dropWhile wsB (List.rdropWhile wsB (List.dropWhile wsB l)) =
      List.rdropWhile wsB (List.dropWhile wsB l) := by
    cases hr : List.rdropWhile wsB (List.dropWhile wsB l) with
    | nil => simp
    | cons a r' =>
      have hpre : List.rdropWhile wsB (List.dropWhile wsB l) <+: List.dropWhile wsB l :=
        List.rdropWhile_prefix wsB (List.dropWhile wsB l)
      rw [hr] at hpre
      obtain ⟨tail, htail⟩ := hpre
      have hne : List.dropWhile wsB l ≠ [] := by
        rw [← htail]; simp
      have hhead := List.head_dropWhile_not wsB l hne
      have ha : (List.dropWhile wsB l).head hne = a := by
        simp only [← htail]
        simp
      rw [ha] at hhead
      simp [List.dropWhile_cons, hhead]
  rw [h1, List.rdropWhile_idempotent]

theorem jsTrim_idem (s : String) : jsTrim (jsTrim s) = jsTrim s := by
  unfold jsTrim
  exact congrArg String.mk (trimList_idem s.data)

theorem collectGo_mem : ∀ (es : List (Except Unit (Option String))) (acc : List String)
    (m : String), m ∈ collectGo es acc → m ∈ acc ∨ ∃ t, m = jsTrim t ∧ jsTrim t ≠ "" := by
  intro es
  induction es with
  | nil => intro acc m hm; exact Or.inl hm
  | cons e rest ih =>
    intro acc m hm
    cases e with
    | error u => exact Or.inl hm
    | ok o =>
      cases o with
      | none => exact Or.inl hm
      | some t =>
        simp only [collectGo] at hm
        by_cases ht : jsTrim t = ""
        · rw [if_pos ht] at hm
          exact ih acc m hm
        · rw [if_neg ht] at hm
          rcases ih _ m hm with h | h
          · rcases List.mem_append.mp h with h | h
            · exact Or.inl h
            · exact Or.inr ⟨t, List.mem_singleton.mp h, ht⟩
          · exact Or.inr h

theorem collectGo_stop (rest : List (Except Unit (Option String))) :
    ∀ (es1 : List (Except Unit (Option String))) (acc : List String),
      (∀ x ∈ es1, ∃ t, x = Except.ok (some t)) →
      collectGo (es1 ++ Except.error () :: rest) acc = collectGo es1 acc := by
  intro es1
  induction es1 with
  | nil => intro acc _; rfl
  | cons e es ih =>
    intro acc h
    obtain ⟨t, rfl⟩ := h e (List.mem_cons_self e es)
    simp only [List.cons_append, collectGo]
    by_cases ht : jsTrim t = ""
    · rw [if_pos ht, if_pos ht]
      exact ih _ fun x hx => h x (List.mem_cons_of_mem _ hx)
    · rw [if_neg ht, if_neg ht]
      exact ih _ fun x hx => h x (List.mem_cons_of_mem _ hx)

theorem isReg_of_body_ok {s : Session} {b : Bool} (h : isRegBody s = Except.ok b) :
    isRegistrationSuccessful s = b := by
  unfold isRegistrationSuccessful
  rw [h]

theorem isReg_of_body_error {s : Session} {e : Unit} (h : isRegBody s = Except.error e) :
    isRegistrationSuccessful s = false := by
  unfold isRegistrationSuccessful
  rw [h]

theorem isRegBody_eq_methods (s : Session) (u : String)
    (hu : s.currentUrl = Except.ok u)
    (hreg : jsIncludes u "register.htm" = true)
    (hcount : s.errorCount = Except.ok 0) :
    isRegBody s = methods1to6 s u := by
  unfold isRegBody
  rw [hu, hcount]
  simp [hreg]

theorem runSteps_all_passed : ∀ (outs : List (String × Except String String)) (t : Nat)
    (st : StepResult), st ∈ (runSteps outs t).1 → st.status = "PASSED" := by
  intro outs
  induction outs with
  | nil => intro t st h; simp [runSteps] at h
  | cons o rest ih =>
    intro t st h
    obtain ⟨n, fr⟩ := o
    cases fr with
    | ok r =>
      simp only [runSteps, executeStep] at h
      rcases List.mem_cons.mp h with h | h
      · rw [h]
      · exact ih _ st h
    | error e => simp [runSteps, executeStep] at h

theorem tc001Go_succ (ud : Registrant) (det : Nat → Bool) (errs : Nat → List String)
    (fuel attempt : Nat) (fills : List Registrant)
    (hf : freshUserDataFor ud = Except.ok ud) :
    tc001Go ud det errs (fuel + 1) attempt fills =
      if det (attempt + 1) then (fills ++ [ud], Except.ok true)
      else if hasUsernameConflict (errs (attempt + 1)) && decide (0 < fuel) then
        tc001Go ud det errs fuel (attempt + 1) (fills ++ [ud])
      else (fills ++ [ud], Except.ok false) := by
  rw [tc001Go, hf]

/-! ## Claim theorems -/

/-- C1: whenever the current URL contains `register.htm` and the `.error`
element count is nonzero, `isRegistrationSuccessful` returns `false`, for
every session state — in particular even when the success banner, the
account-created paragraph, the welcome title, the account-services section
or the success text are simultaneously present, since the rejection check
runs before every success signal. -/
theorem c1_rejection_beats_success_signals (s : Session) (u : String) (n : Nat)
    (hu : s.currentUrl = Except.ok u)
    (hmarker : jsIncludes u "register.htm" = true)
    (hcount : s.errorCount = Except.ok n) (hn : 0 < n) :
    isRegistrationSuccessful s = false := by
  unfold isRegistrationSuccessful isRegBody
  rw [hu, hcount]
  simp only [hmarker, if_true]
  rw [if_pos hn]
  cases s.errorTexts <;> rfl

/-- C1 witness: a concrete session on `register.htm` with one `.error`
element and every success signal present still yields `false`. -/
theorem c1_witness : 0 < 1 ∧ isRegistrationSuccessful sC1 = false :=
  ⟨by decide,
   c1_rejection_beats_success_signals sC1
     "https://parabank.parasoft.com/parabank/register.htm" 1 rfl (by decide) rfl
     (by decide)⟩

/-- C2: evaluation of the TC 001 retry loop at a concrete failing input.
The generated username never contains `testuser_` (it is `u` followed by
base-36 digits), so `freshUserData` is the original `userData` on every
attempt: after a username-conflict failure the next attempt resubmits the
very same username — all three fills carry the identical Registrant,
contradicting the claimed per-attempt regeneration. -/
theorem c2_username_reuse_eval :
    jsIncludes (generateUniqueUser 1700000000000 42 [10, 20, 30, 4, 5]).username
        "testuser_" = false ∧
    (tc001 (generateUniqueUser 1700000000000 42 [10, 20, 30, 4, 5])
        (fun _ => false) (fun _ => ["Username already exists"])).1.map Registrant.username =
      ["uloyw3v2816aku45", "uloyw3v2816aku45", "uloyw3v2816aku45"] := by
  constructor
  · decide
  · decide

/-- C3: with a detector that always reports failure and error lists that
always signal a username conflict, the TC 001 loop fills and submits
exactly 3 times — never a 4th — and then throws the named error
`Registration failed after 3 attempts`. -/
theorem c3_exhaustion_three_attempts (det : Nat → Bool) (errs : Nat → List String)
    (ts rand : Nat) (frac : List Nat) (hfrac : ∀ d ∈ frac, d < 36)
    (hdet : ∀ a, det a = false)
    (hconf : ∀ a, hasUsernameConflict (errs a) = true) :
    tc001 (generateUniqueUser ts rand frac) det errs =
      ([generateUniqueUser ts rand frac, generateUniqueUser ts rand frac,
        generateUniqueUser ts rand frac],
       Except.error "Registration failed after 3 attempts") := by
  have hf := freshUserDataFor_generated ts rand frac hfrac
  have s1 : tc001Go (generateUniqueUser ts rand frac) det errs 3 0 [] =
      tc001Go (generateUniqueUser ts rand frac) det errs 2 1 [generateUniqueUser ts rand frac] := by
    rw [show (3 : Nat) = 2 + 1 from rfl, tc001Go_succ _ det errs 2 0 [] hf, hdet 1, hconf 1]
    simp
  have s2 : tc001Go (generateUniqueUser ts rand frac) det errs 2 1
        [generateUniqueUser ts rand frac] =
      tc001Go (generateUniqueUser ts rand frac) det errs 1 2
        [generateUniqueUser ts rand frac, generateUniqueUser ts rand frac] := by
    rw [show (2 : Nat) = 1 + 1 from rfl, tc001Go_succ _ det errs 1 1 _ hf, hdet 2, hconf 2]
    simp
  have s3 : tc001Go (generateUniqueUser ts rand frac) det errs 1 2
        [generateUniqueUser ts rand frac, generateUniqueUser ts rand frac] =
      ([generateUniqueUser ts rand frac, generateUniqueUser ts rand frac,
        generateUniqueUser ts rand frac], Except.ok false) := by
    rw [show (1 : Nat) = 0 + 1 from rfl, tc001Go_succ _ det errs 0 2 _ hf, hdet 3, hconf 3]
    simp
  unfold tc001
  rw [s1, s2, s3]

/-- C3 witness: the exhaustion theorem instantiated at a concrete generated
user, the always-false detector, and a constant conflict message. -/
theorem c3_witness :
    tc001 (generateUniqueUser 100 7 [1, 2, 3]) (fun _ => false)
        (fun _ => ["Username already exists"]) =
      ([generateUniqueUser 100 7 [1, 2, 3], generateUniqueUser 100 7 [1, 2, 3],
        generateUniqueUser 100 7 [1, 2, 3]],
       Except.error "Registration failed after 3 attempts") :=
  c3_exhaustion_three_attempts (fun _ => false) (fun _ => ["Username already exists"])
    100 7 [1, 2, 3] (by decide) (fun _ => rfl)
    (fun _ => (by decide : hasUsernameConflict ["Username already exists"] = true))

/-- C4: `isRegistrationSuccessful` always evaluates to a boolean (its
embedding is a total function into `Bool`), and whenever any internal
operation outside the per-signal tolerance fails — any `.error` surfacing
from the body, be it the URL read, the error count, the error-text read,
the welcome-title text read, or the page-content read — the outer handler
yields `false` (fail-closed). -/
theorem c4_never_raises_fail_closed (s : Session) :
    (isRegistrationSuccessful s = true ∨ isRegistrationSuccessful s = false) ∧
    ∀ e : Unit, isRegBody s = Except.error e → isRegistrationSuccessful s = false := by
  constructor
  · cases isRegistrationSuccessful s
    · exact Or.inr rfl
    · exact Or.inl rfl
  · intro e h
    exact isReg_of_body_error h

/-- C4 witness: on the session whose URL read fails, the detector still
returns the boolean `false`. -/
theorem c4_witness :
    (isRegistrationSuccessful sC4err = true ∨ isRegistrationSuccessful sC4err = false) ∧
    isRegistrationSuccessful sC4err = false :=
  ⟨(c4_never_raises_fail_closed sC4err).1, (c4_never_raises_fail_closed sC4err).2 () rfl⟩

/-- C5 counterexample: on a session still on `register.htm` with zero
`.error` elements where the welcome title is visible but its text read
fails, the account-services section is visible (a later signal that would
yield `true`) and the page text even carries the success sentence — yet
`isRegistrationSuccessful` returns `false`: the failed text read aborts the
cascade instead of being treated as "not visible". -/
theorem c5_counterexample :
    sC5.isVisible welcomeMessageSel = true ∧
    sC5.textContentRes welcomeMessageSel = Except.error () ∧
    sC5.isVisible accountServicesSel = true ∧
    isRegistrationSuccessful sC5 = false := by
  refine ⟨by decide, rfl, by decide, by decide⟩

/-- C5 amended: only the visibility checks are per-signal fault-tolerant —
`isElementVisible` catches internally, so a failed lookup surfaces as "not
visible" and evaluation proceeds to later signals (first conjunct: welcome
title not visible, account-services visible, result `true`).  But a failure
of the Method 3 text read, after the visibility check passed, propagates to
the outer handler and returns `false` without evaluating the remaining
signals (second conjunct). -/
theorem c5_amended_fault_tolerance :
    (∀ (s : Session) (u : String),
      s.currentUrl = Except.ok u →
      jsIncludes u "register.htm" = true →
      s.errorCount = Except.ok 0 →
      s.isVisible successMessageSel = false →
      s.isVisible usernameParagraphSel = false →
      s.isVisible welcomeMessageSel = false →
      s.isVisible accountServicesSel = true →
      isRegistrationSuccessful s = true) ∧
    (∀ (s : Session) (u : String),
      s.currentUrl = Except.ok u →
      jsIncludes u "register.htm" = true →
      s.errorCount = Except.ok 0 →
      s.isVisible successMessageSel = false →
      s.isVisible usernameParagraphSel = false →
      s.isVisible welcomeMessageSel = true →
      s.textContentRes welcomeMessageSel = Except.error () →
      isRegistrationSuccessful s = false) := by
  constructor
  · intro s u hu hreg hcount h1 h2 h3 h4
    apply isReg_of_body_ok
    rw [isRegBody_eq_methods s u hu hreg hcount]
    unfold methods1to6 method3
    simp [h1, h2, h3, h4]
  · intro s u hu hreg hcount h1 h2 h3 htext
    have hbody : isRegBody s = Except.error () := by
      rw [isRegBody_eq_methods s u hu hreg hcount]
      unfold methods1to6 method3
      simp [h1, h2, h3, htext]
    exact isReg_of_body_error hbody

/-- C5 witness: both halves of the amended statement instantiated — a
session whose welcome-title check reads `false` but whose account-services
section is visible yields `true`; the session whose welcome-title text read
throws yields `false`. -/
theorem c5_witness :
    isRegistrationSuccessful sC5a = true ∧ isRegistrationSuccessful sC5 = false :=
  ⟨c5_amended_fault_tolerance.1 sC5a
     "https://parabank.parasoft.com/parabank/register.htm" rfl (by decide) rfl
     (by decide) (by decide) (by decide) (by decide),
   c5_amended_fault_tolerance.2 sC5
     "https://parabank.parasoft.com/parabank/register.htm" rfl (by decide) rfl
     (by decide) (by decide) (by decide) rfl⟩

/-- C6: still on a URL ending in `register.htm`, zero `.error` elements,
none of the four element signals visible, but the raw page content contains
`Your account was created successfully` — the detector returns `true` (the
raw-text fallback fires, its lowercased content containing
`account was created`). -/
theorem c6_raw_text_fallback (s : Session) (u c : String)
    (hu : s.currentUrl = Except.ok u)
    (hend : "register.htm".data <:+ u.data)
    (hcount : s.errorCount = Except.ok 0)
    (h1 : s.isVisible successMessageSel = false)
    (h2 : s.isVisible usernameParagraphSel = false)
    (h3 : s.isVisible welcomeMessageSel = false)
    (h4 : s.isVisible accountServicesSel = false)
    (hpc : s.pageContent = Except.ok c)
    (hsucc : jsIncludes c "Your account was created successfully" = true) :
    isRegistrationSuccessful s = true := by
  have hreg : jsIncludes u "register.htm" = true := jsIncludes_of_data_suffix hend
  have hlow : jsIncludes (jsToLower c) "account was created" = true :=
    toLower_includes_trans hsucc (by decide)
  apply isReg_of_body_ok
  rw [isRegBody_eq_methods s u hu hreg hcount]
  unfold methods1to6 method3
  cases hov : jsIncludes u "overview" <;> cases hacc : jsIncludes u "account" <;>
    simp [h1, h2, h3, h4, hpc, hreg, hlow, hov, hacc]

/-- C6 witness: the fallback scenario at a concrete session. -/
theorem c6_witness : isRegistrationSuccessful sC6 = true :=
  c6_raw_text_fallback sC6 "https://parabank.parasoft.com/parabank/register.htm"
    "<p>Your account was created successfully</p>" rfl (by decide) rfl rfl rfl rfl rfl
    rfl (by decide)

/-- C7 counterexample: with one readable `.error` element followed by one
whose text read throws, `getErrorMessages` returns the partially collected
`["E1"]` — not the empty sequence the claim requires on a lookup failure. -/
theorem c7_counterexample :
    getErrorMessages sC7c = ["E1"] ∧ (["E1"] : List String) ≠ [] := by
  refine ⟨by decide, by decide⟩

/-- C7 amended: `getErrorMessages` never raises (it is total); every
returned string is non-empty and trim-stable; on zero `.error` elements it
returns the empty sequence; when the initial element lookup throws it
returns the empty sequence; but when a per-element text read throws
mid-iteration it returns exactly the messages collected before the failure,
which need not be empty. -/
theorem c7_amended_error_collection :
    (∀ s : Session, s.errorElements = Except.ok [] → getErrorMessages s = []) ∧
    (∀ s : Session, s.errorElements = Except.error () → getErrorMessages s = []) ∧
    (∀ (s : Session) (m : String), m ∈ getErrorMessages s → m ≠ "" ∧ jsTrim m = m) ∧
    (∀ (s : Session) (es1 rest : List (Except Unit (Option String))),
      s.errorElements = Except.ok (es1 ++ Except.error () :: rest) →
      (∀ x ∈ es1, ∃ t, x = Except.ok (some t)) →
      getErrorMessages s = collectGo es1 []) := by
  refine ⟨?_, ?_, ?_, ?_⟩
  · intro s h
    unfold getErrorMessages
    rw [h]
    rfl
  · intro s h
    unfold getErrorMessages
    rw [h]
  · intro s m hm
    unfold getErrorMessages at hm
    rcases he : s.errorElements with e | es
    · rw [he] at hm
      simp at hm
    · rw [he] at hm
      rcases collectGo_mem es [] m hm with h | ⟨t, rfl, ht⟩
      · simp at h
      · exact ⟨ht, jsTrim_idem t⟩
  · intro s es1 rest h hall
    unfold getErrorMessages
    rw [h]
    exact collectGo_stop rest es1 [] hall

/-- C7 witness: the amended statement instantiated at concrete sessions —
no elements and a failed lookup both give `[]`; the string `E1` collected
from `sC7c` is non-empty and trim-stable; and the mid-iteration failure in
`sC7c` returns exactly the messages collected before it. -/
theorem c7_witness :
    getErrorMessages sC7a = [] ∧
    getErrorMessages sC7b = [] ∧
    ("E1" ≠ "" ∧ jsTrim "E1" = "E1") ∧
    getErrorMessages sC7c = collectGo [Except.ok (some "  E1  ")] [] :=
  ⟨c7_amended_error_collection.1 sC7a rfl,
   c7_amended_error_collection.2.1 sC7b rfl,
   c7_amended_error_collection.2.2.1 sC7c "E1" (by decide),
   c7_amended_error_collection.2.2.2 sC7c [Except.ok (some "  E1  ")]
     [Except.ok (some "E2")] rfl
     (fun x hx => by
       rcases List.mem_singleton.mp hx with rfl
       exact ⟨"  E1  ", rfl⟩)⟩

/-- C8 counterexample: in a run whose first step passes and whose second
step fails, the case is FAILED with the step's error message, yet its
`steps` sequence holds only the one PASSED record — the finalized FAILED
StepResult is not present in the owning CaseResult's steps. -/
theorem c8_counterexample :
    c8run.failedTests = 1 ∧
    c8run.testCases.length = 1 ∧
    (∀ tc ∈ c8run.testCases, tc.status = "FAILED" ∧ tc.error = some "boom") ∧
    (∀ tc ∈ c8run.testCases, ∀ st ∈ tc.steps, st.status = "PASSED" ∧ st.error = none) := by
  refine ⟨by decide, by decide, by decide, by decide⟩

/-- C8 amended: on a step failure `executeStep` does finalize the
StepResult — end timestamp set, status FAILED, error captured — before
rethrowing (the thrown error carries exactly that record); but the rethrow
happens before the caller's `steps.push`, so every StepResult actually
recorded in a CaseResult produced by `runTestCase001` has status PASSED:
the finalized FAILED record is never appended to the case's steps. -/
theorem c8_amended_step_finalization :
    (∀ (n e : String) (t0 t1 : Nat),
      executeStep n (Except.error e) t0 t1 =
        Except.error (e, { name := n, status := "FAILED", startTime := some t0,
                           endTime := some t1, result := none, error := some e })) ∧
    (∀ (res : TestResults) (outs : List (String × Except String String)) (t0 : Nat)
        (tc : CaseResult), tc ∈ (runTestCase001 res outs t0).testCases →
      tc ∈ res.testCases ∨ ∀ st ∈ tc.steps, st.status = "PASSED") := by
  constructor
  · intro n e t0 t1
    rfl
  · intro res outs t0 tc htc
    unfold runTestCase001 at htc
    simp only [List.mem_append, List.mem_singleton] at htc
    rcases htc with h | h
    · exact Or.inl h
    · right
      intro st hst
      rw [h] at hst
      exact runSteps_all_passed outs (t0 + 1) st hst

/-- C8 witness: the finalized FAILED record thrown by a concrete failing
step, and the all-PASSED steps of the concrete passing case record. -/
theorem c8_witness :
    (executeStep "s" (Except.error "boom") 0 1 =
      Except.error ("boom", { name := "s", status := "FAILED", startTime := some 0,
                              endTime := some 1, result := none, error := some "boom" })) ∧
    (c8CaseA ∈ (initialResults 0).testCases ∨ ∀ st ∈ c8CaseA.steps, st.status = "PASSED") :=
  ⟨c8_amended_step_finalization.1 "s" "boom" 0 1,
   c8_amended_step_finalization.2 (initialResults 0) [("s1", Except.ok "r1")] 0 c8CaseA
     (by decide)⟩

/-- C9: the process exit status of `run` is 1 when initialization fails
(fatal launch error), and when the run completes (initialization and report
generation both succeed) the exit status is non-zero exactly when
`failedTests > 0` — and zero otherwise. -/
theorem c9_exit_code_contract (outs : List (String × Except String String)) (t : Nat) :
    (∀ reportOk : Bool, (suiteRun false outs reportOk t).1 = 1) ∧
    ((suiteRun true outs true t).1 ≠ 0 ↔
      0 < (suiteRun true outs true t).2.failedTests) := by
  constructor
  · intro r
    rfl
  · unfold suiteRun
    by_cases h : (runTestCase001 (initialResults t) outs t).failedTests > 0 <;>
      simp [h]

/-- C9 witness: the exit-code contract at a run whose only case fails. -/
theorem c9_witness :
    (∀ reportOk : Bool, (suiteRun false [("s", Except.error "x")] reportOk 0).1 = 1) ∧
    ((suiteRun true [("s", Except.error "x")] true 0).1 ≠ 0 ↔
      0 < (suiteRun true [("s", Except.error "x")] true 0).2.failedTests) :=
  c9_exit_code_contract [("s", Except.error "x")] 0

theorem resultsInvariant_initial (t : Nat) : resultsInvariant (initialResults t) := by
  refine ⟨rfl, rfl, ?_⟩
  intro tc h
  simp [initialResults] at h

theorem resultsInvariant_preserved (r : TestResults)
    (outs : List (String × Except String String)) (t0 : Nat)
    (h : resultsInvariant r) : resultsInvariant (runTestCase001 r outs t0) := by
  obtain ⟨h1, h2, h3⟩ := h
  unfold runTestCase001
  refine ⟨?_, ?_, ?_⟩
  · by_cases hs : (runSteps outs (t0 + 1)).2 = none <;> simp [hs, h1] <;> omega
  · simp [h2]
  · intro tc htc
    simp only [List.mem_append, List.mem_singleton] at htc
    rcases htc with h | h
    · exact h3 tc h
    · subst h
      constructor
      · by_cases hs : (runSteps outs (t0 + 1)).2 = none <;> simp [hs]
      · simp

theorem resultsInvariant_foldl (calls : List (List (String × Except String String) × Nat)) :
    ∀ r : TestResults, resultsInvariant r → resultsInvariant (calls.foldl caseStep r) := by
  induction calls with
  | nil => intro r h; exact h
  | cons c rest ih =>
    intro r h
    exact ih _ (resultsInvariant_preserved r c.1 c.2 h)

/-- C10: the run-record invariant holds after the constructor and after
every completed `runTestCase001` call: `totalTests = passedTests +
failedTests`, `totalTests` equals the length of `testCases`, and every
recorded case has a terminal status (PASSED or FAILED, never RUNNING) and a
set end timestamp. -/
theorem c10_run_record_invariant (t : Nat)
    (calls : List (List (String × Except String String) × Nat)) :
    resultsInvariant (calls.foldl caseStep (initialResults t)) :=
  resultsInvariant_foldl calls (initialResults t) (resultsInvariant_initial t)

/-- C10 witness: the invariant evaluated after two concrete case runs, one
passing and one failing. -/
theorem c10_witness :
    resultsInvariant (List.foldl caseStep (initialResults 0)
      [([("s1", Except.ok "r1")], 0), ([("s2", Except.error "b")], 5)]) :=
  c10_run_record_invariant 0 [([("s1", Except.ok "r1")], 0), ([("s2", Except.error "b")], 5)]
